import Mathlib

/-!
# Verification of `mmworkbench/components/_elasticsearch_helpers.py`

A shallow embedding of the Elasticsearch helper module of the mindmeld
repository, together with proofs about its operations.

Modelling choices:

* The remote Elasticsearch engine is represented by an explicit state
  `EsState` (which scoped indices exist with which mapping body, which
  index templates are present).  Each helper function is embedded as a
  Lean function that takes the current state and returns an `EsOutcome`:
  the new state, the log entries emitted, a trace of engine-mutating
  effects, and the returned value or raised exception.
* Transport connectivity is a flag `conn` on the client: when it is
  `false`, the first transport call of an operation (the cluster-health
  probe at the top of every `try` block) raises `ESConnectionError`,
  which the module's `except` clause translates into
  `KnowledgeBaseConnectionError`.  Both exception kinds are constructors
  of `PyError`, so the translation is observable.
* The external library generator `elasticsearch.helpers.streaming_bulk`
  is not part of this repository; following the module's use of it, it
  yields one `(okay, result)` pair per submitted document, in order.
  The per-document verdicts and result payloads are oracle fields of
  the client (`bulkOk`, `bulkAction`, `bulkId`, `bulkPayload`).
* Python's implicit `return None` is rendered as `Option Nat := none`
  for `load_index` (the spec's contract expects a success count there,
  so the returned value's type keeps room for one).
-/

/-- A minimal rendering of Python's `str.format` for templates that use
only the plain `{}` placeholder, consuming arguments in order. -/
def pyFormat : List Char → List String → String
  | [], _ => ""
  | '{' :: '}' :: rest, a :: args => a ++ pyFormat rest args
  | '{' :: '}' :: rest, [] => pyFormat rest []
  | c :: rest, args => String.singleton c ++ pyFormat rest args

/-- Embedding of `get_scoped_index_name(app_name, index_name)`:
`'{}${}'.format(app_name, index_name)`. -/
def get_scoped_index_name (app_name index_name : String) : String :=
  pyFormat "{}${}".data [app_name, index_name]

/-- Rendering of Python `%r` for an optional string (`None` or `'...'`). -/
def pyRepr : Option String → String
  | none => "None"
  | some s => "'" ++ s ++ "'"

/-- Python truthiness of an optional string: `None` and `''` are falsy. -/
def truthy : Option String → Bool
  | none => false
  | some s => !s.isEmpty

/-- Python's `x or y` on optional strings: `x` when truthy, else `y`. -/
def pyOrElse (x y : Option String) : Option String :=
  if truthy x then x else y

/-- The three environment variables read by `create_es_client`. -/
structure Env where
  mmEsHost : Option String
  mmEsUsername : Option String
  mmEsPassword : Option String

/-- The observable configuration of the `Elasticsearch` client built by
`create_es_client`: the resolved host and the `http_auth` argument. -/
structure EsClientConfig where
  host : Option String
  httpAuth : Option (String × String)
deriving DecidableEq, Repr

/-- Embedding of `create_es_client(es_host, es_user, es_pass)`: resolves each
parameter as the explicit argument `or` the environment variable, and
passes `http_auth=(user, pass)` iff both resolved values are truthy. -/
def create_es_client (env : Env)
    (es_host es_user es_pass : Option String) : EsClientConfig :=
  let es_host := pyOrElse es_host env.mmEsHost
  let es_user := pyOrElse es_user env.mmEsUsername
  let es_pass := pyOrElse es_pass env.mmEsPassword
  let http_auth :=
    if truthy es_user && truthy es_pass then
      some (es_user.getD "", es_pass.getD "")
    else none
  { host := es_host, httpAuth := http_auth }

/-- The exception kinds observable from this module: the transport's
`elasticsearch.ConnectionError` and the module's own
`KnowledgeBaseConnectionError` (whose optional `es_host` argument
carries the client's configured host list when supplied). -/
inductive PyError where
  | esConnectionError : PyError
  | knowledgeBaseConnectionError (esHost : Option (List String)) : PyError
  | esNotFoundError : PyError
deriving DecidableEq, Repr

/-- Log levels used by the module. -/
inductive LogLevel where
  | info | error | debug
deriving DecidableEq, Repr

/-- One emitted log entry. -/
structure LogEntry where
  lvl : LogLevel
  msg : String
deriving DecidableEq, Repr

/-- Engine-mutating effects performed against the cluster, in order. -/
inductive Effect where
  | putTemplate (name : String)
  | createIdx (scopedName mapping : String)
  | deleteIdx (scopedName : String)
  | bulkDoc (doc : String)
deriving DecidableEq, Repr

/-- The remote engine's state: scoped indices (with the mapping body
each was created with) and the set of index-template names present. -/
structure EsState where
  indices : List (String × String)
  templates : List String
deriving DecidableEq, Repr

/-- Engine call `indices.exists(index=name)` against the modelled state. -/
def EsState.indexExists (s : EsState) (name : String) : Bool :=
  (s.indices.lookup name).isSome

/-- Engine call `indices.exists_template(name=name)` against the modelled state. -/
def EsState.templateExists (s : EsState) (name : String) : Bool :=
  s.templates.contains name

/-- The Elasticsearch client handle: its configured transport hosts, a
connectivity flag, and the external engine's per-document bulk-response
oracles (see the module docstring above). -/
structure EsClient where
  hosts : List String
  conn : Bool
  propsOf : String → List String
  bulkOk : String → Bool
  bulkAction : String → String
  bulkId : String → String
  bulkPayload : String → String

/-- The outcome of one helper call: resulting engine state, emitted log,
engine-mutating effect trace, and the returned value or raised error. -/
structure EsOutcome (α : Type) where
  state : EsState
  log : List LogEntry
  effects : List Effect
  result : Except PyError α
deriving Repr

/-- Modelled from the spec: `DEFAULT_ES_INDEX_TEMPLATE_NAME` lives in
`mmworkbench/components/_config.py`, which is not part of the sources
here; the spec describes it only as "a named, engine-global default
schema template".  Its concrete value is immaterial to every claim. -/
def DEFAULT_ES_INDEX_TEMPLATE_NAME : String := "mindmeld_default"

/-- The log entry and raised error of the `except ESConnectionError`
clause shared (with small formatting differences) by every operation;
`withHosts` states whether `es_host=es_client.transport.hosts` is
passed to the `KnowledgeBaseConnectionError` constructor. -/
def connFailure (α : Type) (st : EsState) (es_host : Option String)
    (es : EsClient) (withHosts : Bool) : EsOutcome α :=
  { state := st
    log := [⟨LogLevel.error,
      "Unable to connect to Elasticsearch cluster at " ++ pyRepr es_host⟩]
    effects := []
    result := Except.error (PyError.knowledgeBaseConnectionError
      (if withHosts then some es.hosts else none)) }

/-- Embedding of `does_index_exist(app_name, index_name, ...)`:
health probe, then `indices.exists` on the scoped name. -/
def does_index_exist (app_name index_name : String)
    (es_host : Option String) (es : EsClient) (st : EsState) :
    EsOutcome Bool :=
  let scoped_index_name := get_scoped_index_name app_name index_name
  if es.conn then
    { state := st, log := [], effects := []
      result := Except.ok (st.indexExists scoped_index_name) }
  else
    connFailure Bool st es_host es false

/-- Embedding of `get_field_names(app_name, index_name, ...)`: health probe, then the
key set of the scoped index's document-type property map; a missing
index surfaces the engine's not-found error from `indices.get`. -/
def get_field_names (app_name index_name : String)
    (es_host : Option String) (es : EsClient) (st : EsState) :
    EsOutcome (List String) :=
  let scoped_index_name := get_scoped_index_name app_name index_name
  if es.conn then
    match st.indices.lookup scoped_index_name with
    | some mapping =>
        { state := st, log := [], effects := []
          result := Except.ok (es.propsOf mapping) }
    | none =>
        { state := st, log := [], effects := []
          result := Except.error PyError.esNotFoundError }
  else
    connFailure (List String) st es_host es false

/-- Embedding of `create_index(app_name, index_name, mapping, ...)`: health probe; if
the scoped index is absent, provision the default template when missing
and create the index with the supplied mapping; otherwise log
`'Index %r already exists.'` and return. -/
def create_index (app_name index_name mapping : String)
    (es_host : Option String) (es : EsClient) (st : EsState) :
    EsOutcome Unit :=
  let scoped_index_name := get_scoped_index_name app_name index_name
  if es.conn then
    if !st.indexExists scoped_index_name then
      let tmplStep :
          EsState × List Effect :=
        if !st.templateExists DEFAULT_ES_INDEX_TEMPLATE_NAME then
          ({ st with
              templates := DEFAULT_ES_INDEX_TEMPLATE_NAME :: st.templates },
           [Effect.putTemplate DEFAULT_ES_INDEX_TEMPLATE_NAME])
        else (st, [])
      { state := { tmplStep.1 with
          indices := (scoped_index_name, mapping) :: tmplStep.1.indices }
        log := [⟨LogLevel.info, "Creating index " ++ pyRepr (some index_name)⟩]
        effects := tmplStep.2 ++ [Effect.createIdx scoped_index_name mapping]
        result := Except.ok () }
    else
      { state := st
        log := [⟨LogLevel.error,
          "Index " ++ pyRepr (some index_name) ++ " already exists."⟩]
        effects := []
        result := Except.ok () }
  else
    connFailure Unit st es_host es true

/-- Embedding of `delete_index(app_name, index_name, ...)`: health probe; delete the
scoped index if it exists, else fall through silently. -/
def delete_index (app_name index_name : String)
    (es_host : Option String) (es : EsClient) (st : EsState) :
    EsOutcome Unit :=
  let scoped_index_name := get_scoped_index_name app_name index_name
  if es.conn then
    if st.indexExists scoped_index_name then
      { state := { st with
          indices := st.indices.filter (fun p => p.1 ≠ scoped_index_name) }
        log := [⟨LogLevel.info, "Deleting index " ++ pyRepr (some index_name)⟩]
        effects := [Effect.deleteIdx scoped_index_name]
        result := Except.ok () }
    else
      { state := st, log := [], effects := [], result := Except.ok () }
  else
    connFailure Unit st es_host es true

/-- The body of `load_index`'s `for okay, result in streaming_bulk(...)`
loop: processes the per-document results in order, returning the final
success counter, the per-document log entries, and the submitted-
document effect trace. -/
def bulkLoop (es : EsClient) (index_name doc_type : String)
    (docs : List String) : Nat × List LogEntry × List Effect :=
  match docs with
  | [] => (0, [], [])
  | doc :: rest =>
    let okay := es.bulkOk doc
    let action := es.bulkAction doc
    let doc_id := "/" ++ index_name ++ "/" ++ doc_type ++ "/" ++ es.bulkId doc
    let entry : LogEntry :=
      if !okay then
        ⟨LogLevel.error,
          "Failed to " ++ action ++ " document " ++ doc_id ++ ": " ++
            es.bulkPayload doc⟩
      else
        ⟨LogLevel.debug, "Loaded document: " ++ doc_id⟩
    let tail := bulkLoop es index_name doc_type rest
    ((if okay then 1 else 0) + tail.1, entry :: tail.2.1,
      Effect.bulkDoc doc :: tail.2.2)

/-- Embedding of `load_index(app_name, index_name, docs, ...)`:
health probe; create the index via `create_index` when absent (logging
`'Loading index %r'` when present instead); stream the documents,
counting successes and logging failures; log the final count.  The
Python function body contains no `return`, so the call returns `None`
(`Option.none` here). -/
def load_index (app_name index_name : String) (docs : List String)
    (mapping doc_type : String) (es_host : Option String)
    (es : EsClient) (st : EsState) : EsOutcome (Option Nat) :=
  let scoped_index_name := get_scoped_index_name app_name index_name
  if es.conn then
    let setup : EsState × List LogEntry × List Effect :=
      if st.indexExists scoped_index_name then
        (st, [⟨LogLevel.info, "Loading index " ++ pyRepr (some index_name)⟩],
          [])
      else
        let c := create_index app_name index_name mapping es_host es st
        (c.state, c.log, c.effects)
    let run := bulkLoop es index_name doc_type docs
    let count := run.1
    { state := setup.1
      log := setup.2.1 ++ run.2.1 ++
        [⟨LogLevel.info, "Loaded " ++ toString count ++ " document" ++
          (if count == 1 then "" else "s")⟩]
      effects := setup.2.2 ++ run.2.2
      result := Except.ok none }
  else
    connFailure (Option Nat) st es_host es true

/-! ## Helper lemmas -/

/-- The scoped index name is the application name, the separator `'$'`,
and the logical index name, concatenated. -/
theorem scoped_name_eq (a i : String) :
    get_scoped_index_name a i = a ++ "$" ++ i := by
  have h : "{}${}".data = ['{', '}', '$', '{', '}'] := rfl
  unfold get_scoped_index_name
  rw [h]
  show (a ++ pyFormat ['$', '{', '}'] [i]) = a ++ "$" ++ i
  show (a ++ (String.singleton '$' ++ pyFormat ['{', '}'] [i])) = a ++ "$" ++ i
  show (a ++ (String.singleton '$' ++ (i ++ pyFormat [] []))) = a ++ "$" ++ i
  show (a ++ (String.singleton '$' ++ (i ++ ""))) = a ++ "$" ++ i
  rw [String.append_empty, String.append_assoc]
  rfl

/-- Splitting a list at a distinguished element occurring in neither
prefix is unambiguous. -/
theorem append_cons_sep_inj {c : Char} :
    ∀ {l₁ l₂ r₁ r₂ : List Char}, c ∉ l₁ → c ∉ l₂ →
      l₁ ++ c :: r₁ = l₂ ++ c :: r₂ → l₁ = l₂ ∧ r₁ = r₂ := by
  intro l₁
  induction l₁ with
  | nil =>
    intro l₂ r₁ r₂ _ h₂ h
    cases l₂ with
    | nil => exact ⟨rfl, by simpa using h⟩
    | cons d l₂' =>
      exfalso
      simp only [List.nil_append, List.cons_append, List.cons.injEq] at h
      exact h₂ (h.1 ▸ List.mem_cons_self d l₂')
  | cons a l₁' ih =>
    intro l₂ r₁ r₂ h₁ h₂ h
    cases l₂ with
    | nil =>
      exfalso
      simp only [List.cons_append, List.nil_append, List.cons.injEq] at h
      exact h₁ (h.1 ▸ List.mem_cons_self a l₁')
    | cons d l₂' =>
      simp only [List.cons_append, List.cons.injEq] at h
      have h₁' : c ∉ l₁' := fun hm => h₁ (List.mem_cons_of_mem a hm)
      have h₂' : c ∉ l₂' := fun hm => h₂ (List.mem_cons_of_mem d hm)
      obtain ⟨hl, hr⟩ := ih h₁' h₂' h.2
      exact ⟨by rw [h.1, hl], hr⟩

/-! ## Claims about scoped naming -/

/-- C9: the separator is the literal `'$'`: for all `appName` and
`indexName`, the scoped name equals `appName ++ "$" ++ indexName`. -/
theorem scoped_name_is_dollar_separated (a i : String) :
    get_scoped_index_name a i = a ++ "$" ++ i :=
  scoped_name_eq a i

/-- C5: `get_scoped_index_name` is injective on pairs none of whose
components contains the separator `'$'` (and, being a Lean function of
its two arguments alone, it is pure, total and deterministic). -/
theorem scoped_name_injective (a₁ i₁ a₂ i₂ : String)
    (ha₁ : '$' ∉ a₁.data) (hi₁ : '$' ∉ i₁.data)
    (ha₂ : '$' ∉ a₂.data) (hi₂ : '$' ∉ i₂.data)
    (hne : (a₁, i₁) ≠ (a₂, i₂)) :
    get_scoped_index_name a₁ i₁ ≠ get_scoped_index_name a₂ i₂ := by
  intro h
  rw [scoped_name_eq, scoped_name_eq] at h
  have hdata := congrArg String.data h
  rw [String.data_append, String.data_append,
      String.data_append, String.data_append] at hdata
  have hsep : ("$" : String).data = ['$'] := rfl
  rw [hsep] at hdata
  simp only [List.append_assoc, List.cons_append, List.nil_append] at hdata
  obtain ⟨hl, hr⟩ := append_cons_sep_inj ha₁ ha₂ hdata
  exact hne (by rw [String.ext hl, String.ext hr])

/-- Witness for C5 at concrete inputs. -/
theorem scoped_name_injective_witness :
    get_scoped_index_name "app1" "idx" ≠ get_scoped_index_name "app2" "idx" :=
  scoped_name_injective "app1" "idx" "app2" "idx"
    (by decide) (by decide) (by decide) (by decide) (by decide)

/-! ## Claims about the connection factory -/

/-- C6 counterexample: an explicitly supplied empty-string argument is
not used; Python's `or` falls through to the environment variable.
With `MM_ES_HOST = "envhost"` and explicit `es_host = ""`, the client
is configured with host `"envhost"`, not the supplied argument. -/
theorem create_es_client_empty_arg_counterexample :
    (create_es_client ⟨some "envhost", none, none⟩
        (some "") none none).host = some "envhost" ∧
      (create_es_client ⟨some "envhost", none, none⟩
        (some "") none none).host ≠ some "" := by
  constructor
  · rfl
  · decide

/-- C6 amended: each of host, user and password resolves to the explicit
argument when it is truthy (supplied and non-empty), else to the
environment variable, else remains absent; HTTP basic authentication is
configured if and only if both the resolved user and the resolved
password are truthy, and then carries exactly those resolved values. -/
theorem create_es_client_resolution (env : Env)
    (es_host es_user es_pass : Option String) :
    (create_es_client env es_host es_user es_pass).host =
      (if truthy es_host then es_host else env.mmEsHost) ∧
    (create_es_client env es_host es_user es_pass).httpAuth =
      (if truthy (pyOrElse es_user env.mmEsUsername) &&
          truthy (pyOrElse es_pass env.mmEsPassword) then
        some ((pyOrElse es_user env.mmEsUsername).getD "",
          (pyOrElse es_pass env.mmEsPassword).getD "")
      else none) ∧
    ((create_es_client env es_host es_user es_pass).httpAuth.isSome =
      (truthy (pyOrElse es_user env.mmEsUsername) &&
        truthy (pyOrElse es_pass env.mmEsPassword))) := by
  refine ⟨rfl, rfl, ?_⟩
  simp only [create_es_client]
  by_cases h : truthy (pyOrElse es_user env.mmEsUsername) &&
      truthy (pyOrElse es_pass env.mmEsPassword) <;> simp [h]

/-! ## Claims about connection-failure handling -/

/-- C2: when the transport raises a connection error (the health probe
at the head of each operation's `try` block fails), every operation —
existence check, field enumeration, index creation, index deletion and
bulk load — raises `KnowledgeBaseConnectionError`, a constructor
distinct from the transport's `ESConnectionError`, which is never
propagated to the caller. -/
theorem conn_error_translated (app idx mapping dt : String)
    (docs : List String) (h : Option String) (es : EsClient)
    (st : EsState) (hconn : es.conn = false) :
    (∃ d, (does_index_exist app idx h es st).result =
        Except.error (PyError.knowledgeBaseConnectionError d)) ∧
    (∃ d, (get_field_names app idx h es st).result =
        Except.error (PyError.knowledgeBaseConnectionError d)) ∧
    (∃ d, (create_index app idx mapping h es st).result =
        Except.error (PyError.knowledgeBaseConnectionError d)) ∧
    (∃ d, (delete_index app idx h es st).result =
        Except.error (PyError.knowledgeBaseConnectionError d)) ∧
    (∃ d, (load_index app idx docs mapping dt h es st).result =
        Except.error (PyError.knowledgeBaseConnectionError d)) ∧
    (does_index_exist app idx h es st).result ≠
        Except.error PyError.esConnectionError ∧
    (get_field_names app idx h es st).result ≠
        Except.error PyError.esConnectionError ∧
    (create_index app idx mapping h es st).result ≠
        Except.error PyError.esConnectionError ∧
    (delete_index app idx h es st).result ≠
        Except.error PyError.esConnectionError ∧
    (load_index app idx docs mapping dt h es st).result ≠
        Except.error PyError.esConnectionError := by
  simp [does_index_exist, get_field_names, create_index, delete_index,
    load_index, connFailure, hconn]

/-- Witness for C2 at concrete inputs. -/
theorem conn_error_translated_witness :
    (∃ d, (does_index_exist "a" "i" none
        ⟨["h1"], false, fun _ => [], fun _ => true, fun _ => "index",
          fun d => d, fun _ => "p"⟩ ⟨[], []⟩).result =
        Except.error (PyError.knowledgeBaseConnectionError d)) ∧
    (∃ d, (get_field_names "a" "i" none
        ⟨["h1"], false, fun _ => [], fun _ => true, fun _ => "index",
          fun d => d, fun _ => "p"⟩ ⟨[], []⟩).result =
        Except.error (PyError.knowledgeBaseConnectionError d)) ∧
    (∃ d, (create_index "a" "i" "m" none
        ⟨["h1"], false, fun _ => [], fun _ => true, fun _ => "index",
          fun d => d, fun _ => "p"⟩ ⟨[], []⟩).result =
        Except.error (PyError.knowledgeBaseConnectionError d)) ∧
    (∃ d, (delete_index "a" "i" none
        ⟨["h1"], false, fun _ => [], fun _ => true, fun _ => "index",
          fun d => d, fun _ => "p"⟩ ⟨[], []⟩).result =
        Except.error (PyError.knowledgeBaseConnectionError d)) ∧
    (∃ d, (load_index "a" "i" ["d1"] "m" "document" none
        ⟨["h1"], false, fun _ => [], fun _ => true, fun _ => "index",
          fun d => d, fun _ => "p"⟩ ⟨[], []⟩).result =
        Except.error (PyError.knowledgeBaseConnectionError d)) ∧
    (does_index_exist "a" "i" none
        ⟨["h1"], false, fun _ => [], fun _ => true, fun _ => "index",
          fun d => d, fun _ => "p"⟩ ⟨[], []⟩).result ≠
        Except.error PyError.esConnectionError ∧
    (get_field_names "a" "i" none
        ⟨["h1"], false, fun _ => [], fun _ => true, fun _ => "index",
          fun d => d, fun _ => "p"⟩ ⟨[], []⟩).result ≠
        Except.error PyError.esConnectionError ∧
    (create_index "a" "i" "m" none
        ⟨["h1"], false, fun _ => [], fun _ => true, fun _ => "index",
          fun d => d, fun _ => "p"⟩ ⟨[], []⟩).result ≠
        Except.error PyError.esConnectionError ∧
    (delete_index "a" "i" none
        ⟨["h1"], false, fun _ => [], fun _ => true, fun _ => "index",
          fun d => d, fun _ => "p"⟩ ⟨[], []⟩).result ≠
        Except.error PyError.esConnectionError ∧
    (load_index "a" "i" ["d1"] "m" "document" none
        ⟨["h1"], false, fun _ => [], fun _ => true, fun _ => "index",
          fun d => d, fun _ => "p"⟩ ⟨[], []⟩).result ≠
        Except.error PyError.esConnectionError :=
  conn_error_translated "a" "i" "m" "document" ["d1"] none
    ⟨["h1"], false, fun _ => [], fun _ => true, fun _ => "index",
      fun d => d, fun _ => "p"⟩ ⟨[], []⟩ rfl

/-- C10: on connection failure the existence check and the field
enumeration construct `KnowledgeBaseConnectionError` with no arguments
(no host diagnostics), while index creation, deletion and bulk load
pass `es_host=es_client.transport.hosts` to it. -/
theorem conn_error_diagnostics (app idx mapping dt : String)
    (docs : List String) (h : Option String) (es : EsClient)
    (st : EsState) (hconn : es.conn = false) :
    (does_index_exist app idx h es st).result =
      Except.error (PyError.knowledgeBaseConnectionError none) ∧
    (get_field_names app idx h es st).result =
      Except.error (PyError.knowledgeBaseConnectionError none) ∧
    (create_index app idx mapping h es st).result =
      Except.error (PyError.knowledgeBaseConnectionError (some es.hosts)) ∧
    (delete_index app idx h es st).result =
      Except.error (PyError.knowledgeBaseConnectionError (some es.hosts)) ∧
    (load_index app idx docs mapping dt h es st).result =
      Except.error (PyError.knowledgeBaseConnectionError (some es.hosts)) := by
  simp [does_index_exist, get_field_names, create_index, delete_index,
    load_index, connFailure, hconn]

/-- Witness for C10 at concrete inputs. -/
theorem conn_error_diagnostics_witness :
    (does_index_exist "a" "i" none
        ⟨["h1"], false, fun _ => [], fun _ => true, fun _ => "index",
          fun d => d, fun _ => "p"⟩ ⟨[], []⟩).result =
      Except.error (PyError.knowledgeBaseConnectionError none) ∧
    (get_field_names "a" "i" none
        ⟨["h1"], false, fun _ => [], fun _ => true, fun _ => "index",
          fun d => d, fun _ => "p"⟩ ⟨[], []⟩).result =
      Except.error (PyError.knowledgeBaseConnectionError none) ∧
    (create_index "a" "i" "m" none
        ⟨["h1"], false, fun _ => [], fun _ => true, fun _ => "index",
          fun d => d, fun _ => "p"⟩ ⟨[], []⟩).result =
      Except.error (PyError.knowledgeBaseConnectionError (some ["h1"])) ∧
    (delete_index "a" "i" none
        ⟨["h1"], false, fun _ => [], fun _ => true, fun _ => "index",
          fun d => d, fun _ => "p"⟩ ⟨[], []⟩).result =
      Except.error (PyError.knowledgeBaseConnectionError (some ["h1"])) ∧
    (load_index "a" "i" ["d1"] "m" "document" none
        ⟨["h1"], false, fun _ => [], fun _ => true, fun _ => "index",
          fun d => d, fun _ => "p"⟩ ⟨[], []⟩).result =
      Except.error (PyError.knowledgeBaseConnectionError (some ["h1"])) :=
  conn_error_diagnostics "a" "i" "m" "document" ["d1"] none
    ⟨["h1"], false, fun _ => [], fun _ => true, fun _ => "index",
      fun d => d, fun _ => "p"⟩ ⟨[], []⟩ rfl

/-- C8: when the health probe fails with a connection error, every
operation raises the connectivity error and mutates nothing: the engine
state is unchanged and no engine-mutating effect (template provisioning,
index creation or deletion, document submission) is performed. -/
theorem conn_error_no_mutation (app idx mapping dt : String)
    (docs : List String) (h : Option String) (es : EsClient)
    (st : EsState) (hconn : es.conn = false) :
    ((does_index_exist app idx h es st).state = st ∧
      (does_index_exist app idx h es st).effects = []) ∧
    ((get_field_names app idx h es st).state = st ∧
      (get_field_names app idx h es st).effects = []) ∧
    ((create_index app idx mapping h es st).state = st ∧
      (create_index app idx mapping h es st).effects = [] ∧
      ∃ d, (create_index app idx mapping h es st).result =
        Except.error (PyError.knowledgeBaseConnectionError d)) ∧
    ((delete_index app idx h es st).state = st ∧
      (delete_index app idx h es st).effects = [] ∧
      ∃ d, (delete_index app idx h es st).result =
        Except.error (PyError.knowledgeBaseConnectionError d)) ∧
    ((load_index app idx docs mapping dt h es st).state = st ∧
      (load_index app idx docs mapping dt h es st).effects = [] ∧
      ∃ d, (load_index app idx docs mapping dt h es st).result =
        Except.error (PyError.knowledgeBaseConnectionError d)) := by
  simp [does_index_exist, get_field_names, create_index, delete_index,
    load_index, connFailure, hconn]

/-- Witness for C8 at concrete inputs. -/
theorem conn_error_no_mutation_witness :
    ((does_index_exist "a" "i" none
        ⟨["h1"], false, fun _ => [], fun _ => true, fun _ => "index",
          fun d => d, fun _ => "p"⟩ ⟨[("a$i", "m")], []⟩).state =
        ⟨[("a$i", "m")], []⟩ ∧
      (does_index_exist "a" "i" none
        ⟨["h1"], false, fun _ => [], fun _ => true, fun _ => "index",
          fun d => d, fun _ => "p"⟩ ⟨[("a$i", "m")], []⟩).effects = []) ∧
    ((get_field_names "a" "i" none
        ⟨["h1"], false, fun _ => [], fun _ => true, fun _ => "index",
          fun d => d, fun _ => "p"⟩ ⟨[("a$i", "m")], []⟩).state =
        ⟨[("a$i", "m")], []⟩ ∧
      (get_field_names "a" "i" none
        ⟨["h1"], false, fun _ => [], fun _ => true, fun _ => "index",
          fun d => d, fun _ => "p"⟩ ⟨[("a$i", "m")], []⟩).effects = []) ∧
    ((create_index "a" "i" "m2" none
        ⟨["h1"], false, fun _ => [], fun _ => true, fun _ => "index",
          fun d => d, fun _ => "p"⟩ ⟨[("a$i", "m")], []⟩).state =
        ⟨[("a$i", "m")], []⟩ ∧
      (create_index "a" "i" "m2" none
        ⟨["h1"], false, fun _ => [], fun _ => true, fun _ => "index",
          fun d => d, fun _ => "p"⟩ ⟨[("a$i", "m")], []⟩).effects = [] ∧
      ∃ d, (create_index "a" "i" "m2" none
        ⟨["h1"], false, fun _ => [], fun _ => true, fun _ => "index",
          fun d => d, fun _ => "p"⟩ ⟨[("a$i", "m")], []⟩).result =
        Except.error (PyError.knowledgeBaseConnectionError d)) ∧
    ((delete_index "a" "i" none
        ⟨["h1"], false, fun _ => [], fun _ => true, fun _ => "index",
          fun d => d, fun _ => "p"⟩ ⟨[("a$i", "m")], []⟩).state =
        ⟨[("a$i", "m")], []⟩ ∧
      (delete_index "a" "i" none
        ⟨["h1"], false, fun _ => [], fun _ => true, fun _ => "index",
          fun d => d, fun _ => "p"⟩ ⟨[("a$i", "m")], []⟩).effects = [] ∧
      ∃ d, (delete_index "a" "i" none
        ⟨["h1"], false, fun _ => [], fun _ => true, fun _ => "index",
          fun d => d, fun _ => "p"⟩ ⟨[("a$i", "m")], []⟩).result =
        Except.error (PyError.knowledgeBaseConnectionError d)) ∧
    ((load_index "a" "i" ["d1"] "m2" "document" none
        ⟨["h1"], false, fun _ => [], fun _ => true, fun _ => "index",
          fun d => d, fun _ => "p"⟩ ⟨[("a$i", "m")], []⟩).state =
        ⟨[("a$i", "m")], []⟩ ∧
      (load_index "a" "i" ["d1"] "m2" "document" none
        ⟨["h1"], false, fun _ => [], fun _ => true, fun _ => "index",
          fun d => d, fun _ => "p"⟩ ⟨[("a$i", "m")], []⟩).effects = [] ∧
      ∃ d, (load_index "a" "i" ["d1"] "m2" "document" none
        ⟨["h1"], false, fun _ => [], fun _ => true, fun _ => "index",
          fun d => d, fun _ => "p"⟩ ⟨[("a$i", "m")], []⟩).result =
        Except.error (PyError.knowledgeBaseConnectionError d)) :=
  conn_error_no_mutation "a" "i" "m2" "document" ["d1"] none
    ⟨["h1"], false, fun _ => [], fun _ => true, fun _ => "index",
      fun d => d, fun _ => "p"⟩ ⟨[("a$i", "m")], []⟩ rfl

/-! ## Claims about index creation and deletion -/

/-- After filtering out every pair keyed by `n`, looking up `n` fails. -/
theorem lookup_filter_ne_none (l : List (String × String)) (n : String) :
    (l.filter (fun p => p.1 ≠ n)).lookup n = none := by
  induction l with
  | nil => simp
  | cons a l ih =>
    by_cases hk : a.1 = n
    · simpa [List.filter_cons, hk] using ih
    · simp only [List.filter_cons]
      rw [if_pos (by simpa using hk)]
      have hne : (n == a.1) = false := by
        simp [beq_iff_eq]
        exact fun hc => hk hc.symm
      simp [List.lookup, hne, ih]
      intro x y _ hxn hnx
      exact hxn hnx.symm

/-- Running `create_index` on an already-existing scoped index: logs the
already-exists message, performs no effect, leaves the state unchanged
and returns without error. -/
theorem create_index_existing (app idx mapping : String)
    (h : Option String) (es : EsClient) (st : EsState)
    (hconn : es.conn = true)
    (hex : st.indexExists (get_scoped_index_name app idx) = true) :
    create_index app idx mapping h es st =
      { state := st
        log := [⟨LogLevel.error,
          "Index " ++ pyRepr (some idx) ++ " already exists."⟩]
        effects := []
        result := Except.ok () } := by
  simp [create_index, hconn, hex]

/-- Running `create_index` on a fresh scoped index records exactly the supplied
mapping under the scoped name. -/
theorem create_index_fresh_lookup (app idx mapping : String)
    (h : Option String) (es : EsClient) (st : EsState)
    (hconn : es.conn = true)
    (hfresh : st.indexExists (get_scoped_index_name app idx) = false) :
    (create_index app idx mapping h es st).state.indices.lookup
        (get_scoped_index_name app idx) = some mapping ∧
      (create_index app idx mapping h es st).state.indexExists
        (get_scoped_index_name app idx) = true := by
  have hl : (st.indices.lookup
      (get_scoped_index_name app idx)).isSome = false := hfresh
  by_cases ht : st.templateExists DEFAULT_ES_INDEX_TEMPLATE_NAME <;>
    · constructor <;>
        simp [create_index, hconn, hl, ht, EsState.indexExists,
          List.lookup]

/-- C3: `create_index` is idempotent.  When the scoped index already
exists the call logs, performs no creation attempt (no effects, state
unchanged) and returns without raising; consequently, creating twice
from a fresh state leaves the mapping stored by the first creation
unchanged. -/
theorem create_index_idempotent (app idx mapping : String)
    (h : Option String) (es : EsClient) (st : EsState)
    (hconn : es.conn = true)
    (hex : st.indexExists (get_scoped_index_name app idx) = true) :
    create_index app idx mapping h es st =
      { state := st
        log := [⟨LogLevel.error,
          "Index " ++ pyRepr (some idx) ++ " already exists."⟩]
        effects := []
        result := Except.ok () } ∧
    ∀ (st₀ : EsState) (m₁ m₂ : String),
      st₀.indexExists (get_scoped_index_name app idx) = false →
        create_index app idx m₂ h es
            (create_index app idx m₁ h es st₀).state =
          { state := (create_index app idx m₁ h es st₀).state
            log := [⟨LogLevel.error,
              "Index " ++ pyRepr (some idx) ++ " already exists."⟩]
            effects := []
            result := Except.ok () } ∧
        (create_index app idx m₂ h es
            (create_index app idx m₁ h es st₀).state).state.indices.lookup
            (get_scoped_index_name app idx) = some m₁ := by
  refine ⟨create_index_existing app idx mapping h es st hconn hex, ?_⟩
  intro st₀ m₁ m₂ hfresh
  obtain ⟨hm₁, hex₁⟩ :=
    create_index_fresh_lookup app idx m₁ h es st₀ hconn hfresh
  have h₂ := create_index_existing app idx m₂ h es
    (create_index app idx m₁ h es st₀).state hconn hex₁
  exact ⟨h₂, by rw [h₂]; exact hm₁⟩

/-- Witness for C3 at concrete inputs. -/
theorem create_index_idempotent_witness :
    create_index "a" "i" "m" none
        ⟨["h1"], true, fun _ => [], fun _ => true, fun _ => "index",
          fun d => d, fun _ => "p"⟩ ⟨[("a$i", "m0")], []⟩ =
      { state := ⟨[("a$i", "m0")], []⟩
        log := [⟨LogLevel.error,
          "Index " ++ pyRepr (some "i") ++ " already exists."⟩]
        effects := []
        result := Except.ok () } ∧
    ∀ (st₀ : EsState) (m₁ m₂ : String),
      st₀.indexExists (get_scoped_index_name "a" "i") = false →
        create_index "a" "i" m₂ none
            ⟨["h1"], true, fun _ => [], fun _ => true, fun _ => "index",
              fun d => d, fun _ => "p"⟩
            (create_index "a" "i" m₁ none
              ⟨["h1"], true, fun _ => [], fun _ => true, fun _ => "index",
                fun d => d, fun _ => "p"⟩ st₀).state =
          { state := (create_index "a" "i" m₁ none
              ⟨["h1"], true, fun _ => [], fun _ => true, fun _ => "index",
                fun d => d, fun _ => "p"⟩ st₀).state
            log := [⟨LogLevel.error,
              "Index " ++ pyRepr (some "i") ++ " already exists."⟩]
            effects := []
            result := Except.ok () } ∧
        (create_index "a" "i" m₂ none
            ⟨["h1"], true, fun _ => [], fun _ => true, fun _ => "index",
              fun d => d, fun _ => "p"⟩
            (create_index "a" "i" m₁ none
              ⟨["h1"], true, fun _ => [], fun _ => true, fun _ => "index",
                fun d => d, fun _ => "p"⟩ st₀).state).state.indices.lookup
            (get_scoped_index_name "a" "i") = some m₁ :=
  create_index_idempotent "a" "i" "m" none
    ⟨["h1"], true, fun _ => [], fun _ => true, fun _ => "index",
      fun d => d, fun _ => "p"⟩ ⟨[("a$i", "m0")], []⟩ rfl (by decide)

/-- C4: `delete_index` deletes the scoped index when it exists (and it
no longer exists afterwards); when the scoped index does not exist the
call is a silent no-op: state unchanged, no effect, no log, no error. -/
theorem delete_index_spec (app idx : String) (h : Option String)
    (es : EsClient) (st : EsState) (hconn : es.conn = true) :
    (st.indexExists (get_scoped_index_name app idx) = true →
      delete_index app idx h es st =
        { state := ⟨st.indices.filter
            (fun p => p.1 ≠ get_scoped_index_name app idx), st.templates⟩
          log := [⟨LogLevel.info, "Deleting index " ++ pyRepr (some idx)⟩]
          effects := [Effect.deleteIdx (get_scoped_index_name app idx)]
          result := Except.ok () } ∧
      (delete_index app idx h es st).state.indexExists
        (get_scoped_index_name app idx) = false) ∧
    (st.indexExists (get_scoped_index_name app idx) = false →
      delete_index app idx h es st =
        { state := st, log := [], effects := [], result := Except.ok () }) := by
  constructor
  · intro hex
    constructor
    · simp [delete_index, hconn, hex]
    · have hl : (st.indices.lookup
          (get_scoped_index_name app idx)).isSome = true := hex
      simp [delete_index, hconn, hl, EsState.indexExists]
      intro a b _ hne hc
      exact hne hc.symm
  · intro hmiss
    simp [delete_index, hconn, hmiss]

/-- Witness for C4 at concrete inputs. -/
theorem delete_index_spec_witness :
    (EsState.indexExists ⟨[("a$i", "m")], []⟩
        (get_scoped_index_name "a" "i") = true →
      delete_index "a" "i" none
          ⟨["h1"], true, fun _ => [], fun _ => true, fun _ => "index",
            fun d => d, fun _ => "p"⟩ ⟨[("a$i", "m")], []⟩ =
        { state := ⟨List.filter
            (fun p => p.1 ≠ get_scoped_index_name "a" "i")
            [("a$i", "m")], []⟩
          log := [⟨LogLevel.info, "Deleting index " ++ pyRepr (some "i")⟩]
          effects := [Effect.deleteIdx (get_scoped_index_name "a" "i")]
          result := Except.ok () } ∧
      (delete_index "a" "i" none
          ⟨["h1"], true, fun _ => [], fun _ => true, fun _ => "index",
            fun d => d, fun _ => "p"⟩
          ⟨[("a$i", "m")], []⟩).state.indexExists
        (get_scoped_index_name "a" "i") = false) ∧
    (EsState.indexExists ⟨[("a$i", "m")], []⟩
        (get_scoped_index_name "a" "i") = false →
      delete_index "a" "i" none
          ⟨["h1"], true, fun _ => [], fun _ => true, fun _ => "index",
            fun d => d, fun _ => "p"⟩ ⟨[("a$i", "m")], []⟩ =
        { state := ⟨[("a$i", "m")], []⟩, log := [], effects := []
          result := Except.ok () }) :=
  delete_index_spec "a" "i" none
    ⟨["h1"], true, fun _ => [], fun _ => true, fun _ => "index",
      fun d => d, fun _ => "p"⟩ ⟨[("a$i", "m")], []⟩ rfl

/-! ## Claims about the bulk loader -/

/-- The loop's success counter plus the number of engine-rejected
documents equals the number of documents submitted. -/
theorem bulkLoop_count_add (es : EsClient) (idx dt : String)
    (docs : List String) :
    (bulkLoop es idx dt docs).1 +
      (docs.filter (fun d => es.bulkOk d = false)).length = docs.length := by
  have hfun : (fun d => decide (es.bulkOk d = false)) =
      (fun d => !es.bulkOk d) := by
    funext d; cases h : es.bulkOk d <;> simp [h]
  rw [hfun]
  induction docs with
  | nil => rfl
  | cons d rest ih =>
    by_cases hok : es.bulkOk d <;>
      · simp only [bulkLoop, List.filter_cons, hok]
        simp [hok]
        omega

/-- The loop submits every document, in input order. -/
theorem bulkLoop_effects (es : EsClient) (idx dt : String) :
    ∀ docs : List String,
      (bulkLoop es idx dt docs).2.2 = docs.map Effect.bulkDoc := by
  intro docs
  induction docs with
  | nil => rfl
  | cons d rest ih => simp [bulkLoop, ih]

/-- The loop emits exactly one log entry per document. -/
theorem bulkLoop_log_length (es : EsClient) (idx dt : String) :
    ∀ docs : List String,
      (bulkLoop es idx dt docs).2.1.length = docs.length := by
  intro docs
  induction docs with
  | nil => rfl
  | cons d rest ih => simp [bulkLoop, ih]

/-- Every engine-rejected document gets its failure logged, with the
attempted action, the document path identifier and the raw payload. -/
theorem bulkLoop_failure_logged (es : EsClient) (idx dt : String) :
    ∀ docs : List String, ∀ d ∈ docs, es.bulkOk d = false →
      (⟨LogLevel.error,
        "Failed to " ++ es.bulkAction d ++ " document " ++
          ("/" ++ idx ++ "/" ++ dt ++ "/" ++ es.bulkId d) ++ ": " ++
          es.bulkPayload d⟩ : LogEntry) ∈ (bulkLoop es idx dt docs).2.1 := by
  intro docs
  induction docs with
  | nil => intro d hd; simp at hd
  | cons a rest ih =>
    intro d hd hfail
    rcases List.mem_cons.mp hd with rfl | hd'
    · simp [bulkLoop, hfail]
    · exact List.mem_cons_of_mem _ (ih d hd' hfail)

/-- Running `load_index` when the scoped index already exists: no creation, the
state is untouched, the documents are streamed and the final count is
logged; the call returns `None`. -/
theorem load_index_eq_existing (app idx mapping dt : String)
    (docs : List String) (h : Option String) (es : EsClient)
    (st : EsState) (hconn : es.conn = true)
    (hex : st.indexExists (get_scoped_index_name app idx) = true) :
    load_index app idx docs mapping dt h es st =
      { state := st
        log := ⟨LogLevel.info, "Loading index " ++ pyRepr (some idx)⟩ ::
          (bulkLoop es idx dt docs).2.1 ++
          [⟨LogLevel.info,
            "Loaded " ++ toString (bulkLoop es idx dt docs).1 ++
              " document" ++
              (if (bulkLoop es idx dt docs).1 == 1 then "" else "s")⟩]
        effects := (bulkLoop es idx dt docs).2.2
        result := Except.ok none } := by
  simp [load_index, hconn, hex]

/-- Running `load_index` when the scoped index is missing: the outcome is the
`create_index` call's state, log and effects followed by the streaming
of the documents; the call returns `None`. -/
theorem load_index_eq_missing (app idx mapping dt : String)
    (docs : List String) (h : Option String) (es : EsClient)
    (st : EsState) (hconn : es.conn = true)
    (hfresh : st.indexExists (get_scoped_index_name app idx) = false) :
    load_index app idx docs mapping dt h es st =
      { state := (create_index app idx mapping h es st).state
        log := (create_index app idx mapping h es st).log ++
          (bulkLoop es idx dt docs).2.1 ++
          [⟨LogLevel.info,
            "Loaded " ++ toString (bulkLoop es idx dt docs).1 ++
              " document" ++
              (if (bulkLoop es idx dt docs).1 == 1 then "" else "s")⟩]
        effects := (create_index app idx mapping h es st).effects ++
          (bulkLoop es idx dt docs).2.2
        result := Except.ok none } := by
  simp [load_index, hconn, hfresh]

/-- C1 counterexample: `load_index`'s body contains no `return`
statement, so the call returns `None` rather than the success count.
Loading `N = 2` documents of which `K = 1` is engine-rejected yields
the count `N - K = 1` internally, but the call's returned value is
`None`, not `1`. -/
theorem load_index_returns_none_counterexample :
    (load_index "a" "i" ["d1", "bad"] "m" "document" none
        ⟨["h1"], true, fun _ => [], fun d => d != "bad", fun _ => "index",
          fun d => d, fun _ => "p"⟩ ⟨[], []⟩).result ≠
      Except.ok (some 1) ∧
    (load_index "a" "i" ["d1", "bad"] "m" "document" none
        ⟨["h1"], true, fun _ => [], fun d => d != "bad", fun _ => "index",
          fun d => d, fun _ => "p"⟩ ⟨[], []⟩).result = Except.ok none ∧
    (bulkLoop ⟨["h1"], true, fun _ => [], fun d => d != "bad",
        fun _ => "index", fun d => d, fun _ => "p"⟩ "i" "document"
        ["d1", "bad"]).1 = 1 := by
  refine ⟨?_, rfl, rfl⟩
  intro hc
  have h2 : (Except.ok (none : Option Nat) : Except PyError (Option Nat)) =
      Except.ok (some 1) := hc
  simp at h2

/-- C1 amended: `load_index` processes all `N` documents (each is
submitted to the engine, an engine-rejected document has its failure
logged and does not increment the success counter, and processing
continues past it), and the success counter reaches exactly `N - K`
where `K` is the number of engine-rejected documents; that count is
logged as the final log entry, but the call itself returns `None`. -/
theorem load_index_counts (app idx mapping dt : String)
    (docs : List String) (h : Option String) (es : EsClient)
    (st : EsState) (hconn : es.conn = true) :
    (bulkLoop es idx dt docs).1 =
      docs.length - (docs.filter (fun d => es.bulkOk d = false)).length ∧
    (bulkLoop es idx dt docs).2.2 = docs.map Effect.bulkDoc ∧
    (load_index app idx docs mapping dt h es st).result = Except.ok none ∧
    (load_index app idx docs mapping dt h es st).log.getLast? =
      some ⟨LogLevel.info,
        "Loaded " ++ toString (bulkLoop es idx dt docs).1 ++ " document" ++
          (if (bulkLoop es idx dt docs).1 == 1 then "" else "s")⟩ ∧
    ∀ d ∈ docs, es.bulkOk d = false →
      (⟨LogLevel.error,
        "Failed to " ++ es.bulkAction d ++ " document " ++
          ("/" ++ idx ++ "/" ++ dt ++ "/" ++ es.bulkId d) ++ ": " ++
          es.bulkPayload d⟩ : LogEntry) ∈
        (load_index app idx docs mapping dt h es st).log := by
  refine ⟨?_, bulkLoop_effects es idx dt docs, ?_, ?_, ?_⟩
  · have := bulkLoop_count_add es idx dt docs
    omega
  · by_cases hex : st.indexExists (get_scoped_index_name app idx) = true
    · rw [load_index_eq_existing app idx mapping dt docs h es st hconn hex]
    · rw [load_index_eq_missing app idx mapping dt docs h es st hconn
        (by simpa using hex)]
  · by_cases hex : st.indexExists (get_scoped_index_name app idx) = true
    · rw [load_index_eq_existing app idx mapping dt docs h es st hconn hex]
      show (List.getLast? (_ :: (_ ++ _))) = _
      rw [← List.cons_append, List.getLast?_concat]
    · rw [load_index_eq_missing app idx mapping dt docs h es st hconn
        (by simpa using hex)]
      exact List.getLast?_concat _
  · intro d hd hfail
    have hmem := bulkLoop_failure_logged es idx dt docs d hd hfail
    by_cases hex : st.indexExists (get_scoped_index_name app idx) = true
    · rw [load_index_eq_existing app idx mapping dt docs h es st hconn hex]
      exact List.mem_cons_of_mem _ (List.mem_append_left _ hmem)
    · rw [load_index_eq_missing app idx mapping dt docs h es st hconn
        (by simpa using hex)]
      exact List.mem_append_left _ (List.mem_append_right _ hmem)

/-- Witness for the amended C1 at concrete inputs. -/
theorem load_index_counts_witness :
    (bulkLoop ⟨["h1"], true, fun _ => [], fun d => d != "bad",
        fun _ => "index", fun d => d, fun _ => "p"⟩ "i" "document"
        ["d1", "bad"]).1 =
      (["d1", "bad"] : List String).length -
        ((["d1", "bad"] : List String).filter
          (fun d => (⟨["h1"], true, fun _ => [], fun d => d != "bad",
            fun _ => "index", fun d => d, fun _ => "p"⟩ :
              EsClient).bulkOk d = false)).length ∧
    (bulkLoop ⟨["h1"], true, fun _ => [], fun d => d != "bad",
        fun _ => "index", fun d => d, fun _ => "p"⟩ "i" "document"
        ["d1", "bad"]).2.2 =
      (["d1", "bad"] : List String).map Effect.bulkDoc ∧
    (load_index "a" "i" ["d1", "bad"] "m" "document" none
        ⟨["h1"], true, fun _ => [], fun d => d != "bad", fun _ => "index",
          fun d => d, fun _ => "p"⟩ ⟨[], []⟩).result = Except.ok none ∧
    (load_index "a" "i" ["d1", "bad"] "m" "document" none
        ⟨["h1"], true, fun _ => [], fun d => d != "bad", fun _ => "index",
          fun d => d, fun _ => "p"⟩ ⟨[], []⟩).log.getLast? =
      some ⟨LogLevel.info,
        "Loaded " ++ toString (bulkLoop ⟨["h1"], true, fun _ => [],
            fun d => d != "bad", fun _ => "index", fun d => d,
            fun _ => "p"⟩ "i" "document" ["d1", "bad"]).1 ++
          " document" ++
          (if (bulkLoop ⟨["h1"], true, fun _ => [], fun d => d != "bad",
              fun _ => "index", fun d => d, fun _ => "p"⟩ "i" "document"
              ["d1", "bad"]).1 == 1 then "" else "s")⟩ ∧
    ∀ d ∈ (["d1", "bad"] : List String),
      (⟨["h1"], true, fun _ => [], fun d => d != "bad", fun _ => "index",
        fun d => d, fun _ => "p"⟩ : EsClient).bulkOk d = false →
      (⟨LogLevel.error,
        "Failed to " ++ (⟨["h1"], true, fun _ => [], fun d => d != "bad",
            fun _ => "index", fun d => d, fun _ => "p"⟩ :
              EsClient).bulkAction d ++ " document " ++
          ("/" ++ "i" ++ "/" ++ "document" ++ "/" ++
            (⟨["h1"], true, fun _ => [], fun d => d != "bad",
              fun _ => "index", fun d => d, fun _ => "p"⟩ :
                EsClient).bulkId d) ++ ": " ++
          (⟨["h1"], true, fun _ => [], fun d => d != "bad",
            fun _ => "index", fun d => d, fun _ => "p"⟩ :
              EsClient).bulkPayload d⟩ : LogEntry) ∈
        (load_index "a" "i" ["d1", "bad"] "m" "document" none
          ⟨["h1"], true, fun _ => [], fun d => d != "bad",
            fun _ => "index", fun d => d, fun _ => "p"⟩ ⟨[], []⟩).log :=
  load_index_counts "a" "i" "m" "document" ["d1", "bad"] none
    ⟨["h1"], true, fun _ => [], fun d => d != "bad", fun _ => "index",
      fun d => d, fun _ => "p"⟩ ⟨[], []⟩ rfl

/-- C7: when the scoped index does not exist, `load_index` first invokes
`create_index` with the caller-supplied mapping (whose effects include
creating the index, and after which the index exists) and only then
streams the documents; when the index already exists no creation is
attempted — the effect trace is exactly the document submissions. -/
theorem load_index_provisioning (app idx mapping dt : String)
    (docs : List String) (h : Option String) (es : EsClient)
    (st : EsState) (hconn : es.conn = true) :
    (st.indexExists (get_scoped_index_name app idx) = false →
      (load_index app idx docs mapping dt h es st).effects =
        (create_index app idx mapping h es st).effects ++
          docs.map Effect.bulkDoc ∧
      Effect.createIdx (get_scoped_index_name app idx) mapping ∈
        (create_index app idx mapping h es st).effects ∧
      (load_index app idx docs mapping dt h es st).state =
        (create_index app idx mapping h es st).state ∧
      (load_index app idx docs mapping dt h es st).state.indexExists
        (get_scoped_index_name app idx) = true) ∧
    (st.indexExists (get_scoped_index_name app idx) = true →
      (load_index app idx docs mapping dt h es st).effects =
        docs.map Effect.bulkDoc ∧
      (∀ n m, Effect.createIdx n m ∉
        (load_index app idx docs mapping dt h es st).effects) ∧
      (load_index app idx docs mapping dt h es st).state = st) := by
  constructor
  · intro hfresh
    rw [load_index_eq_missing app idx mapping dt docs h es st hconn hfresh]
    refine ⟨by simp [bulkLoop_effects], ?_, rfl, ?_⟩
    · have hl : (st.indices.lookup
          (get_scoped_index_name app idx)).isSome = false := hfresh
      by_cases ht : st.templateExists DEFAULT_ES_INDEX_TEMPLATE_NAME <;>
        simp [create_index, hconn, hl, ht, EsState.indexExists]
    · exact (create_index_fresh_lookup app idx mapping h es st hconn
        hfresh).2
  · intro hex
    rw [load_index_eq_existing app idx mapping dt docs h es st hconn hex]
    refine ⟨by simp [bulkLoop_effects], ?_, rfl⟩
    intro n m hmem
    simp only [bulkLoop_effects] at hmem
    rcases List.mem_map.mp hmem with ⟨d, _, hd⟩
    exact Effect.noConfusion hd

/-- Witness for C7 at concrete inputs. -/
theorem load_index_provisioning_witness :
    (EsState.indexExists ⟨[], []⟩ (get_scoped_index_name "a" "i") = false →
      (load_index "a" "i" ["d1"] "m" "document" none
          ⟨["h1"], true, fun _ => [], fun _ => true, fun _ => "index",
            fun d => d, fun _ => "p"⟩ ⟨[], []⟩).effects =
        (create_index "a" "i" "m" none
          ⟨["h1"], true, fun _ => [], fun _ => true, fun _ => "index",
            fun d => d, fun _ => "p"⟩ ⟨[], []⟩).effects ++
          (["d1"] : List String).map Effect.bulkDoc ∧
      Effect.createIdx (get_scoped_index_name "a" "i") "m" ∈
        (create_index "a" "i" "m" none
          ⟨["h1"], true, fun _ => [], fun _ => true, fun _ => "index",
            fun d => d, fun _ => "p"⟩ ⟨[], []⟩).effects ∧
      (load_index "a" "i" ["d1"] "m" "document" none
          ⟨["h1"], true, fun _ => [], fun _ => true, fun _ => "index",
            fun d => d, fun _ => "p"⟩ ⟨[], []⟩).state =
        (create_index "a" "i" "m" none
          ⟨["h1"], true, fun _ => [], fun _ => true, fun _ => "index",
            fun d => d, fun _ => "p"⟩ ⟨[], []⟩).state ∧
      (load_index "a" "i" ["d1"] "m" "document" none
          ⟨["h1"], true, fun _ => [], fun _ => true, fun _ => "index",
            fun d => d, fun _ => "p"⟩ ⟨[], []⟩).state.indexExists
        (get_scoped_index_name "a" "i") = true) ∧
    (EsState.indexExists ⟨[], []⟩ (get_scoped_index_name "a" "i") = true →
      (load_index "a" "i" ["d1"] "m" "document" none
          ⟨["h1"], true, fun _ => [], fun _ => true, fun _ => "index",
            fun d => d, fun _ => "p"⟩ ⟨[], []⟩).effects =
        (["d1"] : List String).map Effect.bulkDoc ∧
      (∀ n m, Effect.createIdx n m ∉
        (load_index "a" "i" ["d1"] "m" "document" none
          ⟨["h1"], true, fun _ => [], fun _ => true, fun _ => "index",
            fun d => d, fun _ => "p"⟩ ⟨[], []⟩).effects) ∧
      (load_index "a" "i" ["d1"] "m" "document" none
          ⟨["h1"], true, fun _ => [], fun _ => true, fun _ => "index",
            fun d => d, fun _ => "p"⟩ ⟨[], []⟩).state = ⟨[], []⟩) :=
  load_index_provisioning "a" "i" "m" "document" ["d1"] none
    ⟨["h1"], true, fun _ => [], fun _ => true, fun _ => "index",
      fun d => d, fun _ => "p"⟩ ⟨[], []⟩ rfl
